import Mathlib

/-!
# R3ACT metrics engine: a shallow embedding

This file embeds the core of the R3ACT soccer-telemetry metrics system
(`src/event_detector.py`, `src/metrics_calculator.py`, `src/r3act_system.py`)
into Lean 4 and proves properties of the embedded functions.

Conventions of the embedding:
* Python floats that only flow through field-free arithmetic (timestamps,
  raw coordinates, widths/lengths, possession counts, GIRI arithmetic) are
  modelled as `ℚ`; quantities that pass through `sqrt` (distance to center,
  instantaneous speed, Mahalanobis distances, proximity averages) live in `ℝ`.
* Python `None` results are `Option`, a raised `IndexError` is
  `Except.error ()`.
* Python dictionaries holding event weights are association lists.
-/

namespace R3ACT

/-- One entry of a frame's `player_data` list: `{player_id, x, y}`. -/
structure PlayerPos where
  player_id : ℤ
  x : ℚ
  y : ℚ
  deriving DecidableEq, Repr

/-- The `possession` record of a tracking frame: `{group: home|away|none}`. -/
structure PossessionInfo where
  group : String
  deriving DecidableEq, Repr

/-- A tracking frame `{frame, timestamp, period, player_data, possession}`. -/
structure Frame where
  frame : ℤ
  timestamp : ℚ
  period : ℤ
  player_data : List PlayerPos
  possession : PossessionInfo
  deriving DecidableEq, Repr

/-- A player baseline record as produced by `BaselineCalculator`
(keys `x_mean`, `y_mean`, `dist_to_center_mean`, `velocity_mean`;
absent keys default to 0 at the read site, folded into construction here). -/
structure PlayerBaseline where
  x_mean : ℚ
  y_mean : ℚ
  dist_to_center_mean : ℚ
  velocity_mean : ℚ
  deriving DecidableEq, Repr

/-- One row of the `phases_of_play` table, with the columns the metric
engines read. Times are the raw `"MM:SS.s"` strings of the source data. -/
structure Phase where
  team_in_possession_id : ℤ
  time_start : String
  time_end : String
  team_out_of_possession_width_start : ℚ
  team_out_of_possession_length_start : ℚ
  team_in_possession_width_start : ℚ
  team_in_possession_length_start : ℚ
  deriving DecidableEq, Repr

/-! ## Python primitives -/

/-- Python list indexing `l[i]`: negative indices count from the end,
out-of-range indices raise `IndexError` (modelled as `Except.error ()`). -/
def pyIndex {α : Type} (l : List α) (i : ℤ) : Except Unit α :=
  if 0 ≤ (if i < 0 then (l.length : ℤ) + i else i) then
    match l.get? (if i < 0 then (l.length : ℤ) + i else i).toNat with
    | some a => Except.ok a
    | none => Except.error ()
  else Except.error ()

/-- Accumulate decimal digits; any non-digit character fails (as Python
`int`/`float` raise `ValueError` on malformed numerals). -/
def parseDigitsAux : ℕ → List Char → Option ℕ
  | acc, [] => some acc
  | acc, c :: cs =>
    if c.isDigit then parseDigitsAux (10 * acc + (c.toNat - 48)) cs
    else none

/-- Parse a nonempty all-digit string. -/
def parseDigits : List Char → Option ℕ
  | [] => none
  | cs => parseDigitsAux 0 cs

/-- Python `str.split(sep)` for a one-character separator, keeping empty
parts (structural recursion so concrete strings evaluate). -/
def splitOnChar (sep : Char) : List Char → List (List Char)
  | [] => [[]]
  | c :: rest =>
    if c = sep then [] :: splitOnChar sep rest
    else
      match splitOnChar sep rest with
      | h :: t => (c :: h) :: t
      | [] => [[c]]

/-- Python `int(s)` on a decimal numeral (optional leading minus);
malformed input is `none` (the `ValueError` path). -/
def pyInt : List Char → Option ℤ
  | [] => none
  | c :: rest =>
    if c = '-' then (parseDigits rest).map (fun n => -(n : ℤ))
    else (parseDigits (c :: rest)).map (fun n => (n : ℤ))

/-- Unsigned part of `pyFloat`: `digits[.digits]`, either side of the
point possibly empty (but not both). -/
def pyFloatCore (t : List Char) : Option ℚ :=
  match splitOnChar '.' t with
  | [a] => (parseDigits a).map (fun n => (n : ℚ))
  | [a, b] =>
    if a = [] ∧ b = [] then none
    else
      match (if a = [] then some 0 else parseDigits a),
            (if b = [] then some 0 else parseDigits b) with
      | some n, some f => some ((n : ℚ) + (f : ℚ) / (10 : ℚ) ^ b.length)
      | _, _ => none
  | _ => none

/-- Python `float(s)` restricted to plain decimal numerals
`[-]digits[.digits]`; malformed input is `none` (the `ValueError` path). -/
def pyFloat : List Char → Option ℚ
  | [] => none
  | c :: rest =>
    if c = '-' then (pyFloatCore rest).map Neg.neg
    else pyFloatCore (c :: rest)

/-- `MetricsCalculator._parse_phase_time`: `"MM:SS.s"` to seconds, any
parse failure falling back to `0.0`. -/
def parsePhaseTime (s : String) : ℚ :=
  if s.data.contains ':' then
    match splitOnChar ':' s.data with
    | p0 :: p1 :: _ =>
      match pyInt p0, pyFloat p1 with
      | some m, some sec => (m : ℚ) * 60 + sec
      | _, _ => 0
    | _ => 0
  else
    match pyFloat s.data with
    | some v => v
    | none => 0

/-! ## Event weights (`CriticalEventDetector._normalize_weights`) -/

/-- Sum of the values of an event-weight dictionary. -/
def totalWeight (w : List (String × ℚ)) : ℚ :=
  (w.map (fun kv => kv.2)).sum

/-- `_normalize_weights`: divide every weight by the total when the total
is positive, otherwise leave the dictionary unchanged. -/
def normalizeWeights (w : List (String × ℚ)) : List (String × ℚ) :=
  if 0 < totalWeight w then w.map (fun kv => (kv.1, kv.2 / totalWeight w)) else w

/-! ## CRT window selection (`calculate_crt`, lines 40-68) -/

/-- Lookup of the actor inside a frame's `player_data`
(`next((p for p in player_data_list if p.get('player_id') == player_id), None)`). -/
def findPlayer (ps : List PlayerPos) (pid : ℤ) : Option PlayerPos :=
  ps.find? (fun p => p.player_id == pid)

/-- Locate the tracking frame matching the event: exact frame id, or
timestamp within 0.5 s; first hit wins, paired with its index. -/
def findErrorFrame (tracking : List Frame) (ets : ℚ) (ef : ℤ) :
    Option (ℕ × Frame) :=
  tracking.enum.find? (fun p =>
    p.2.frame == ef || decide (|p.2.timestamp - ets| < 1/2))

/-- The post-event window of `calculate_crt`: frames of the event's period
with timestamp in `[ets, ets + W]`, each paired with its index in the full
tracking sequence. -/
def postErrorFrames (tracking : List Frame) (errorPeriod : ℤ) (ets W : ℚ) :
    List (ℕ × Frame) :=
  tracking.enum.filter (fun p =>
    p.2.period == errorPeriod &&
    decide (ets ≤ p.2.timestamp) &&
    decide (p.2.timestamp ≤ ets + W))

/-! ## CRT per-sample metrics (`calculate_crt`, lines 75-114) -/

/-- One element of the `player_metrics` list built by `calculate_crt`:
the stored coordinates and timestamp are the raw frame data (rational),
the derived distance-to-center and speed pass through `sqrt` (real). -/
structure CrtMetric where
  timestamp : ℚ
  x : ℚ
  y : ℚ
  dist_to_center : ℝ
  velocity : ℝ

noncomputable instance : Inhabited CrtMetric := ⟨⟨0, 0, 0, 0, 0⟩⟩

/-- The loop of lines 77-114: walk the retained window frames, skip frames
where the actor is absent, and compute each present sample's speed —
against the previous collected sample when one exists (`player_metrics[-1]`),
otherwise against the frame's predecessor in the full tracking sequence. -/
noncomputable def playerMetricsGo (tracking : List Frame) (pid : ℤ) :
    Option CrtMetric → List (ℕ × Frame) → List CrtMetric
  | _, [] => []
  | prev, (idx, f) :: rest =>
    match findPlayer f.player_data pid with
    | none => playerMetricsGo tracking pid prev rest
    | some p =>
      let velocity : ℝ :=
        match prev with
        | some pm =>
          let dt : ℚ := f.timestamp - pm.timestamp
          if 0 < dt then
            Real.sqrt (((p.x : ℝ) - (pm.x : ℝ)) ^ 2 + ((p.y : ℝ) - (pm.y : ℝ)) ^ 2) / (dt : ℝ)
          else 0
        | none =>
          if 0 < idx ∧ idx < tracking.length then
            match tracking.get? (idx - 1) with
            | some pf =>
              match findPlayer pf.player_data pid with
              | some pp =>
                let dt : ℚ := f.timestamp - pf.timestamp
                if 0 < dt then
                  Real.sqrt (((p.x : ℝ) - (pp.x : ℝ)) ^ 2 + ((p.y : ℝ) - (pp.y : ℝ)) ^ 2) / (dt : ℝ)
                else 0
              | none => 0
            | none => 0
          else 0
      let m : CrtMetric :=
        ⟨f.timestamp, p.x, p.y, Real.sqrt ((p.x : ℝ) ^ 2 + (p.y : ℝ) ^ 2), velocity⟩
      m :: playerMetricsGo tracking pid (some m) rest

/-- The `player_metrics` list of `calculate_crt`. -/
noncomputable def playerMetrics (tracking : List Frame) (pid : ℤ)
    (pef : List (ℕ × Frame)) : List CrtMetric :=
  playerMetricsGo tracking pid none pef

/-! ## CRT Mahalanobis stage (`calculate_crt`, lines 119-184) -/

/-- The 4-vector `[x, y, dist_to_center, velocity]` of a sample. -/
noncomputable def featureVec (m : CrtMetric) : Fin 4 → ℝ :=
  ![(m.x : ℝ), (m.y : ℝ), m.dist_to_center, m.velocity]

/-- The baseline reference 4-vector of lines 121-126. -/
noncomputable def baselineVec (b : PlayerBaseline) : Fin 4 → ℝ :=
  ![(b.x_mean : ℝ), (b.y_mean : ℝ), (b.dist_to_center_mean : ℝ), (b.velocity_mean : ℝ)]

/-- Componentwise mean of a list of 4-vectors (as inside `np.cov`). -/
noncomputable def meanVec (vs : List (Fin 4 → ℝ)) (i : Fin 4) : ℝ :=
  ((vs.map (fun v => v i)).sum) / (vs.length : ℝ)

/-- `np.cov(metrics_array.T)`: the sample covariance matrix with the
default `ddof = 1` normalization by `n - 1`. -/
noncomputable def covMatrix (vs : List (Fin 4 → ℝ)) : Matrix (Fin 4) (Fin 4) ℝ :=
  Matrix.of fun i j =>
    ((vs.map (fun v => (v i - meanVec vs i) * (v j - meanVec vs j))).sum) /
      ((vs.length : ℝ) - 1)

/-- The regularized covariance `cov + 0.01 * I` of line 139. -/
noncomputable def regCov (vs : List (Fin 4 → ℝ)) : Matrix (Fin 4) (Fin 4) ℝ :=
  covMatrix vs + (0.01 : ℝ) • (1 : Matrix (Fin 4) (Fin 4) ℝ)

/-- `scipy.spatial.distance.mahalanobis(u, v, VI)`:
`sqrt((u - v)ᵀ · VI · (u - v))`. -/
noncomputable def mahalanobisDist (u v : Fin 4 → ℝ)
    (VI : Matrix (Fin 4) (Fin 4) ℝ) : ℝ :=
  Real.sqrt (∑ i, ∑ j, (u i - v i) * VI i j * (u j - v j))

/-- The `mahalanobis_distances` list of lines 147-160 (in exact arithmetic
the scipy call never raises, so no sample is dropped). -/
noncomputable def mahalanobisList (b : PlayerBaseline) (pm : List CrtMetric) :
    List ℝ :=
  pm.map (fun m =>
    mahalanobisDist (featureVec m) (baselineVec b) (regCov (pm.map featureVec))⁻¹)

/-- Tail of the EWMA recurrence `ewma[i] = 0.3*d[i] + (1-0.3)*ewma[i-1]`. -/
noncomputable def ewmaGo (prev : ℝ) : List ℝ → List ℝ
  | [] => []
  | d :: ds =>
    let e : ℝ := 0.3 * d + (1 - 0.3) * prev
    e :: ewmaGo e ds

/-- Lines 165-169: EWMA smoothing seeded with the first raw value. -/
noncomputable def ewmaList : List ℝ → List ℝ
  | [] => []
  | d :: ds => d :: ewmaGo d ds

open Classical in
/-- Lines 171-178: index of the first smoothed value below the threshold 1.0. -/
noncomputable def firstRecoveryIdx : List ℝ → Option ℕ
  | [] => none
  | e :: es =>
    if e < 1 then some 0 else (firstRecoveryIdx es).map Nat.succ

open Classical in
/-- `MetricsCalculator.calculate_crt`.  The baseline calculator is passed as
the lookup function `getB` (`self.baseline.get_player_baseline`, whose empty
dict for an unknown player is `none` here). `np.linalg.inv` raises exactly
on a singular matrix, hence the determinant test. -/
noncomputable def calculate_crt (getB : ℤ → Option PlayerBaseline) (pid : ℤ)
    (ets : ℚ) (ef : ℤ) (tracking : List Frame) (W : ℚ) : Option ℚ :=
  match findErrorFrame tracking ets ef with
  | none => none
  | some kf =>
    let pef := postErrorFrames tracking kf.2.period ets W
    if pef.length < 10 then none
    else
      match getB pid with
      | none => none
      | some b =>
        let pm := playerMetrics tracking pid pef
        if pm.length < 5 then none
        else
          let vs := pm.map featureVec
          if vs.length < 2 then none
          else
            if (regCov vs).det = 0 then none
            else
              let ds := mahalanobisList b pm
              if ds.length < 5 then none
              else
                match firstRecoveryIdx (ewmaList ds) with
                | some i => some ((pm.getD i default).timestamp - ets)
                | none => some W

/-! ## TSI window selection (shared by the proximity and possession
components, which duplicate the same loop in the source) -/

/-- Sub-window `[ets − W, ets)` restricted to the event's period. -/
def tsiPreFrames (tracking : List Frame) (period : ℤ) (ets W : ℚ) : List Frame :=
  tracking.filter (fun f =>
    f.period == period &&
    decide (ets - W ≤ f.timestamp) &&
    decide (f.timestamp < ets))

/-- Sub-window `[ets, ets + W]` restricted to the event's period. -/
def tsiPostFrames (tracking : List Frame) (period : ℤ) (ets W : ℚ) : List Frame :=
  tracking.filter (fun f =>
    f.period == period &&
    decide (ets ≤ f.timestamp) &&
    decide (f.timestamp ≤ ets + W))

/-! ## TSI proximity component (`_calculate_proximity_component`) -/

/-- `avg_team_distance`: over frames where the actor is present, the
distances from the actor to every other listed player; mean, or the
large default 100.0 when no distance was collected. -/
noncomputable def avgTeamDistance (frames : List Frame) (pid : ℤ) : ℝ :=
  let distances : List ℝ :=
    (frames.map (fun f =>
      match findPlayer f.player_data pid with
      | none => []
      | some ep =>
        (f.player_data.filter (fun p => !(p.player_id == pid))).map (fun p =>
          Real.sqrt (((p.x : ℝ) - (ep.x : ℝ)) ^ 2 + ((p.y : ℝ) - (ep.y : ℝ)) ^ 2)))).flatten
  if distances = [] then 100 else distances.sum / (distances.length : ℝ)

open Classical in
/-- `_calculate_proximity_component`.  Note the source reads
`tracking_frames[error_frame]` — a raw Python index with the event's frame
id, which can raise `IndexError` (`Except.error`). -/
noncomputable def proximityComponent (pid team_id : ℤ) (ets : ℚ) (ef : ℤ)
    (tracking : List Frame) (W : ℚ) : Except Unit ℝ :=
  match pyIndex tracking ef with
  | Except.error e => Except.error e
  | Except.ok efd =>
    let pre := tsiPreFrames tracking efd.period ets W
    let post := tsiPostFrames tracking efd.period ets W
    if pre.length < 5 ∨ post.length < 5 then Except.ok 0
    else
      let preAvg := avgTeamDistance pre pid
      let postAvg := avgTeamDistance post pid
      if 0 < preAvg then Except.ok ((preAvg - postAvg) / preAvg)
      else Except.ok 0

/-! ## TSI possession component (`_calculate_possession_component`) -/

/-- `possession_rate`: fraction of frames whose possession group is the
given side. -/
def possessionRate (frames : List Frame) (isHome : Bool) : ℚ :=
  if frames = [] then 0
  else
    ((frames.filter (fun f =>
      f.possession.group == (if isHome then "home" else "away"))).length : ℚ) /
      (frames.length : ℚ)

/-- `_calculate_possession_component`.  The `team_id` parameter is present
in the source signature but never read: the side is resolved from the
possession group at `tracking_frames[error_frame]` (which can raise). -/
def possessionComponent (team_id : ℤ) (ets : ℚ) (ef : ℤ)
    (tracking : List Frame) (W : ℚ) : Except Unit ℚ :=
  match pyIndex tracking ef with
  | Except.error e => Except.error e
  | Except.ok efd =>
    let isHome := efd.possession.group == "home"
    let pre := tsiPreFrames tracking efd.period ets W
    let post := tsiPostFrames tracking efd.period ets W
    if pre.length < 5 ∨ post.length < 5 then Except.ok 0
    else
      let preR := possessionRate pre isHome
      let postR := possessionRate post isHome
      if 0 < preR then Except.ok ((postR - preR) / preR)
      else Except.ok 0

/-! ## TSI structure component (`_calculate_structure_component`) -/

/-- Phase rows kept for the pre window: the source's
`if phase_team_id != team_id: continue` keeps exactly the phases whose
`team_in_possession_id` equals the actor's team, with `time_start` in
`[ets − W, ets)`. -/
def structurePrePhases (team_id : ℤ) (ets W : ℚ) (phases : List Phase) :
    List Phase :=
  phases.filter (fun p =>
    p.team_in_possession_id == team_id &&
    decide (ets - W ≤ parsePhaseTime p.time_start) &&
    decide (parsePhaseTime p.time_start < ets))

/-- Phase rows kept for the post window (`time_start` in `[ets, ets + W]`). -/
def structurePostPhases (team_id : ℤ) (ets W : ℚ) (phases : List Phase) :
    List Phase :=
  phases.filter (fun p =>
    p.team_in_possession_id == team_id &&
    decide (ets ≤ parsePhaseTime p.time_start) &&
    decide (parsePhaseTime p.time_start ≤ ets + W))

/-- `avg_compactness`: mean of width × length of the out-of-possession
team over phases with positive width and length, defaulting to 1000.0. -/
def avgCompactness (phases : List Phase) : ℚ :=
  let vals := (phases.filter (fun p =>
    decide (0 < p.team_out_of_possession_width_start) &&
    decide (0 < p.team_out_of_possession_length_start))).map (fun p =>
      p.team_out_of_possession_width_start * p.team_out_of_possession_length_start)
  if vals = [] then 1000 else vals.sum / (vals.length : ℚ)

/-- `_calculate_structure_component` (total: it never indexes tracking). -/
def structureComponent (team_id : ℤ) (ets : ℚ) (phases : List Phase)
    (W : ℚ) : ℚ :=
  let pre := structurePrePhases team_id ets W phases
  let post := structurePostPhases team_id ets W phases
  if pre.length < 1 ∨ post.length < 1 then 0
  else
    let preC := avgCompactness pre
    let postC := avgCompactness post
    if 0 < preC then (preC - postC) / preC else 0

/-- `MetricsCalculator.calculate_tsi`: weighted combination
`0.4 * proximity + 0.3 * possession + 0.3 * structure`; an `IndexError`
raised by a component propagates. -/
noncomputable def calculate_tsi (pid team_id : ℤ) (ets : ℚ) (ef : ℤ)
    (tracking : List Frame) (phases : List Phase) (W : ℚ) : Except Unit ℝ :=
  match proximityComponent pid team_id ets ef tracking W with
  | Except.error e => Except.error e
  | Except.ok p =>
    match possessionComponent team_id ets ef tracking W with
    | Except.error e => Except.error e
    | Except.ok q =>
      let s := structureComponent team_id ets phases W
      Except.ok (p * 0.4 + (q : ℝ) * 0.3 + (s : ℝ) * 0.3)

/-- The TSI step of `R3ACTSystem._process_match`: skip when tracking or
phases are empty, otherwise call `calculate_tsi` inside `try/except`,
recording `None` on any exception. -/
noncomputable def processTsi (pid team_id : ℤ) (ets : ℚ) (ef : ℤ)
    (tracking : List Frame) (phases : List Phase) (W : ℚ) : Option ℝ :=
  if tracking.isEmpty ∨ phases.isEmpty then none
  else
    match calculate_tsi pid team_id ets ef tracking phases W with
    | Except.ok v => some v
    | Except.error _ => none

/-! ## GIRI (`calculate_giri`, `_calculate_tactical_metrics`) -/

/-- GIRI pre window `[g − W, g)`: timestamp test only — the frame's period
is read into a local in the source (line 415) but never used. -/
def giriPreFrames (tracking : List Frame) (g W : ℚ) : List Frame :=
  tracking.filter (fun f =>
    decide (g - W ≤ f.timestamp) && decide (f.timestamp < g))

/-- GIRI post window `[g, g + W]`: timestamp test only. -/
def giriPostFrames (tracking : List Frame) (g W : ℚ) : List Frame :=
  tracking.filter (fun f =>
    decide (g ≤ f.timestamp) && decide (f.timestamp ≤ g + W))

/-- The record `_calculate_tactical_metrics` returns. -/
structure TacticalMetrics where
  block_height : ℚ
  avg_velocity : ℚ
  compactness : ℚ
  deriving DecidableEq, Repr

/-- `_calculate_tactical_metrics`: `None` on an empty frame list; block
height is the mean y of all listed players over frames whose possession
group matches the side of the window's first frame; compactness is the
mean width × length of in-possession phases of the team within 60 s of the
window anchor; `avg_velocity` is the source's hard-coded 0 placeholder. -/
def tacticalMetrics (frames : List Frame) (team_id : ℤ) (phases : List Phase)
    (startTs : ℚ) : Option TacticalMetrics :=
  match frames with
  | [] => none
  | f0 :: _ =>
    let isHome := f0.possession.group == "home"
    let side : String := if isHome then "home" else "away"
    let ys : List ℚ :=
      ((frames.filter (fun f => f.possession.group == side)).map (fun f =>
        f.player_data.map (fun p => p.y))).flatten
    let block_height : ℚ := if ys = [] then 0 else ys.sum / (ys.length : ℚ)
    let compactVals : List ℚ :=
      (phases.filter (fun p =>
        p.team_in_possession_id == team_id &&
        decide (|parsePhaseTime p.time_start - startTs| < 60) &&
        decide (0 < p.team_in_possession_width_start) &&
        decide (0 < p.team_in_possession_length_start))).map (fun p =>
          p.team_in_possession_width_start * p.team_in_possession_length_start)
    let compactness : ℚ :=
      if compactVals = [] then 1000 else compactVals.sum / (compactVals.length : ℚ)
    some ⟨block_height, 0, compactness⟩

/-- The normalized change `(post − pre)/|pre|`, 0 when `pre` is 0. -/
def relChange (pre post : ℚ) : ℚ :=
  if pre ≠ 0 then (post - pre) / |pre| else 0

/-- `MetricsCalculator.calculate_giri`. -/
def calculate_giri (team_id : ℤ) (g : ℚ) (tracking : List Frame)
    (phases : List Phase) (W : ℚ) : Option ℚ :=
  let pre := giriPreFrames tracking g W
  let post := giriPostFrames tracking g W
  if pre.length < 10 ∨ post.length < 10 then none
  else
    match tacticalMetrics pre team_id phases (g - W),
          tacticalMetrics post team_id phases g with
    | some pm, some qm =>
      some ((relChange pm.block_height qm.block_height +
             relChange pm.avg_velocity qm.avg_velocity +
             relChange pm.compactness qm.compactness) / 3)
    | _, _ => none

/-- The GIRI step of `R3ACTSystem._process_match`: only events typed
`goal_scored`/`goal_conceded` reach `calculate_giri`, and only with
nonempty tracking and phases; everything else keeps the initial `None`. -/
def processGiri (event_type : String) (team_id : ℤ) (g : ℚ)
    (tracking : List Frame) (phases : List Phase) (W : ℚ) : Option ℚ :=
  if event_type == "goal_scored" || event_type == "goal_conceded" then
    if tracking.isEmpty ∨ phases.isEmpty then none
    else calculate_giri team_id g tracking phases W
  else none

/-! ## Spec-side definitions for the CRT speed rule (claim C1)

The spec asserts that EVERY retained sample's speed is computed against the
immediately preceding frame of the FULL tracking sequence.  The next two
definitions transcribe that reading; they are compared with the
source-derived `playerMetrics`. -/

/-- Speed of a retained sample against the frame that immediately precedes
it in the full tracking sequence (zero when there is no such frame, the
actor is absent from it, or the time difference is not positive). -/
noncomputable def claimedVelocity (tracking : List Frame) (pid : ℤ) (idx : ℕ)
    (f : Frame) (p : PlayerPos) : ℝ :=
  if 0 < idx ∧ idx < tracking.length then
    match tracking.get? (idx - 1) with
    | some pf =>
      match findPlayer pf.player_data pid with
      | some pp =>
        let dt : ℚ := f.timestamp - pf.timestamp
        if 0 < dt then
          Real.sqrt (((p.x : ℝ) - (pp.x : ℝ)) ^ 2 + ((p.y : ℝ) - (pp.y : ℝ)) ^ 2) / (dt : ℝ)
        else 0
      | none => 0
    | none => 0
  else 0

/-- The per-sample metric list as the spec describes it: actor-absent
frames skipped, every speed taken against the full-sequence predecessor. -/
noncomputable def claimedPlayerMetrics (tracking : List Frame) (pid : ℤ)
    (pef : List (ℕ × Frame)) : List CrtMetric :=
  pef.filterMap (fun q =>
    (findPlayer q.2.player_data pid).map (fun p =>
      ⟨q.2.timestamp, p.x, p.y, Real.sqrt ((p.x : ℝ) ^ 2 + (p.y : ℝ) ^ 2),
        claimedVelocity tracking pid q.1 q.2 p⟩))

/-! ## The actual CRT speed rule, restated positionally (amended C1) -/

/-- The retained window frames in which the actor appears, paired with the
actor's entry. -/
def presentRetained (pid : ℤ) (pef : List (ℕ × Frame)) :
    List (ℕ × Frame × PlayerPos) :=
  pef.filterMap (fun q =>
    (findPlayer q.2.player_data pid).map (fun p => (q.1, q.2, p)))

/-- Amended speed rule: the first actor-present sample falls back to the
full-sequence predecessor; every later sample is measured against the
previous actor-present retained sample (carried as `(timestamp, x, y)`). -/
noncomputable def amendedGo (tracking : List Frame) (pid : ℤ) :
    Option (ℚ × ℚ × ℚ) → List (ℕ × Frame × PlayerPos) → List CrtMetric
  | _, [] => []
  | prev, (idx, f, p) :: rest =>
    let velocity : ℝ :=
      match prev with
      | some (pts, px, py) =>
        let dt : ℚ := f.timestamp - pts
        if 0 < dt then
          Real.sqrt (((p.x : ℝ) - (px : ℝ)) ^ 2 + ((p.y : ℝ) - (py : ℝ)) ^ 2) / (dt : ℝ)
        else 0
      | none => claimedVelocity tracking pid idx f p
    ⟨f.timestamp, p.x, p.y, Real.sqrt ((p.x : ℝ) ^ 2 + (p.y : ℝ) ^ 2), velocity⟩ ::
      amendedGo tracking pid (some (f.timestamp, p.x, p.y)) rest

/-- The amended description of `player_metrics`. -/
noncomputable def amendedPlayerMetrics (tracking : List Frame) (pid : ℤ)
    (pef : List (ℕ × Frame)) : List CrtMetric :=
  amendedGo tracking pid none (presentRetained pid pef)

/-! ## Concrete inputs used by counterexamples and witnesses -/

/-- Three frames: the event frame at t = 0, an interleaved period-2 frame
at t = 0.5 (excluded from the period-1 window), and a period-1 frame at
t = 1.  The actor (id 7) appears in all three. -/
def trackingC1 : List Frame :=
  [⟨100, 0, 1, [⟨7, 0, 0⟩], ⟨"none"⟩⟩,
   ⟨101, 1/2, 2, [⟨7, 3, 8⟩], ⟨"none"⟩⟩,
   ⟨102, 1, 1, [⟨7, 3, 4⟩], ⟨"none"⟩⟩]

/-- Two phase rows whose `team_in_possession_id` is the actor's team
(id 5), one inside the pre window of an event at t = 50 (W = 120), one
inside the post window; opponent footprint shrinks from 100 to 50. -/
def phasesInPossession : List Phase :=
  [⟨5, "00:10.0", "00:20.0", 10, 10, 0, 0⟩,
   ⟨5, "01:40.0", "01:50.0", 5, 10, 0, 0⟩]

/-- The same two phase rows, now held by the opposing team (id 9), i.e.
the actor's team (id 5) is out of possession during them. -/
def phasesOutOfPossession : List Phase :=
  [⟨9, "00:10.0", "00:20.0", 10, 10, 0, 0⟩,
   ⟨9, "01:40.0", "01:50.0", 5, 10, 0, 0⟩]

/-- Twenty frames around a goal at t = 300 with W = 300: ten in the pre
window `[0, 300)` and ten in the post window `[300, 600]`. -/
def trackingGiri : List Frame :=
  ((List.range 10).map (fun i => ⟨(i : ℤ), (i : ℚ), 1, [], ⟨"none"⟩⟩)) ++
  ((List.range 10).map (fun i => ⟨(10 + i : ℤ), 300 + (i : ℚ), 1, [], ⟨"none"⟩⟩))

/-- A single resting frame used by TSI witnesses. -/
def frameOne : Frame := ⟨0, 0, 1, [], ⟨"none"⟩⟩

/-- Ten period-1 frames at t = 0..9 in which player 7 sits at the origin;
frame ids 100..109, the event frame being id 100 at t = 0. -/
def trackingCrt : List Frame :=
  [⟨100, 0, 1, [⟨7, 0, 0⟩], ⟨"none"⟩⟩,
   ⟨101, 1, 1, [⟨7, 0, 0⟩], ⟨"none"⟩⟩,
   ⟨102, 2, 1, [⟨7, 0, 0⟩], ⟨"none"⟩⟩,
   ⟨103, 3, 1, [⟨7, 0, 0⟩], ⟨"none"⟩⟩,
   ⟨104, 4, 1, [⟨7, 0, 0⟩], ⟨"none"⟩⟩,
   ⟨105, 5, 1, [⟨7, 0, 0⟩], ⟨"none"⟩⟩,
   ⟨106, 6, 1, [⟨7, 0, 0⟩], ⟨"none"⟩⟩,
   ⟨107, 7, 1, [⟨7, 0, 0⟩], ⟨"none"⟩⟩,
   ⟨108, 8, 1, [⟨7, 0, 0⟩], ⟨"none"⟩⟩,
   ⟨109, 9, 1, [⟨7, 0, 0⟩], ⟨"none"⟩⟩]

/-- A baseline that coincides with the resting position of player 7 in
`trackingCrt`: all four baseline means are zero. -/
def baselineZero : PlayerBaseline := ⟨0, 0, 0, 0⟩

/-! # Theorems -/

/-- Dividing every element of a list by a constant divides the sum. -/
theorem list_sum_map_div (l : List ℚ) (t : ℚ) :
    (l.map (fun x => x / t)).sum = l.sum / t := by
  induction l with
  | nil => simp
  | cons a l ih => simp [ih, add_div]

/-- C8: for every configured event-weight dictionary with positive total,
the weights normalized by `_normalize_weights` sum to 1.0 within 1e-9, and
the raw table `{A: 2, B: 1}` normalizes to `A = 2/3`, `B = 1/3`. -/
theorem crt_event_weights_sum_one :
    (∀ w : List (String × ℚ), 0 < totalWeight w →
      |totalWeight (normalizeWeights w) - 1| ≤ 1 / 1000000000) ∧
    normalizeWeights [("A", 2), ("B", 1)] = [("A", 2/3), ("B", 1/3)] := by
  constructor
  · intro w hw
    have ht : totalWeight w ≠ 0 := ne_of_gt hw
    have hsum : totalWeight (normalizeWeights w) = 1 := by
      calc totalWeight (normalizeWeights w)
          = ((w.map (fun kv => (kv.1, kv.2 / totalWeight w))).map
              (fun kv => kv.2)).sum := by
            rw [normalizeWeights, if_pos hw]; rfl
        _ = ((w.map (fun kv : String × ℚ => kv.2)).map
              (fun x => x / totalWeight w)).sum := by
            rw [List.map_map, List.map_map]; rfl
        _ = (w.map (fun kv : String × ℚ => kv.2)).sum / totalWeight w :=
            list_sum_map_div _ _
        _ = 1 := div_self ht
    rw [hsum]
    norm_num
  · norm_num [normalizeWeights, totalWeight]

/-- Witness for C8 at the concrete table `{A: 2, B: 1}`. -/
theorem crt_event_weights_sum_one_witness :
    |totalWeight (normalizeWeights [("A", 2), ("B", 1)]) - 1| ≤ 1 / 1000000000 :=
  crt_event_weights_sum_one.1 [("A", 2), ("B", 1)] (by norm_num [totalWeight])

/-- C9: the TSI possession component does not depend on its `team_id`
argument — the home/away side is resolved solely from the possession group
recorded at the event frame. -/
theorem possession_component_team_id_independent :
    ∀ (t1 t2 : ℤ) (ets : ℚ) (ef : ℤ) (tracking : List Frame) (W : ℚ),
      possessionComponent t1 ets ef tracking W =
        possessionComponent t2 ets ef tracking W := by
  intro t1 t2 ets ef tracking W
  rfl

/-- C10: the GIRI pre/post windows select frames by timestamp alone — any
frame of any period in range is admitted — while the CRT post-event window
admits only frames of the event's period. -/
theorem giri_windows_ignore_period :
    (∀ (tracking : List Frame) (g W : ℚ) (f : Frame), f ∈ tracking →
      g - W ≤ f.timestamp → f.timestamp < g → f ∈ giriPreFrames tracking g W) ∧
    (∀ (tracking : List Frame) (g W : ℚ) (f : Frame), f ∈ tracking →
      g ≤ f.timestamp → f.timestamp ≤ g + W → f ∈ giriPostFrames tracking g W) ∧
    (∀ (tracking : List Frame) (period : ℤ) (ets W : ℚ) (q : ℕ × Frame),
      q ∈ postErrorFrames tracking period ets W → q.2.period = period) := by
  refine ⟨?_, ?_, ?_⟩
  · intro tracking g W f hmem h1 h2
    simp only [giriPreFrames, List.mem_filter]
    exact ⟨hmem, by simp [h1, h2]⟩
  · intro tracking g W f hmem h1 h2
    simp only [giriPostFrames, List.mem_filter]
    exact ⟨hmem, by simp [h1, h2]⟩
  · intro tracking period ets W q hq
    simp only [postErrorFrames, List.mem_filter, Bool.and_eq_true, beq_iff_eq,
      decide_eq_true_eq] at hq
    exact hq.2.1.1

/-- Witness for C10: a period-2 frame inside `[g − W, g)` is admitted to
the GIRI pre window. -/
theorem giri_windows_ignore_period_witness :
    (⟨1, 5, 2, [], ⟨"none"⟩⟩ : Frame) ∈
      giriPreFrames [⟨1, 5, 2, [], ⟨"none"⟩⟩] 10 300 :=
  giri_windows_ignore_period.1 [⟨1, 5, 2, [], ⟨"none"⟩⟩] 10 300
    ⟨1, 5, 2, [], ⟨"none"⟩⟩ (by decide) (by norm_num) (by norm_num)

/-- `"00:10.0"` parses to 10 s. -/
theorem parsePhaseTime_ten : parsePhaseTime "00:10.0" = 10 := by
  have h : parsePhaseTime "00:10.0" =
      ((0 : ℤ) : ℚ) * 60 + (((10 : ℕ) : ℚ) + ((0 : ℕ) : ℚ) / 10 ^ 1) := by rfl
  rw [h]; norm_num

/-- `"01:40.0"` parses to 100 s. -/
theorem parsePhaseTime_hundred : parsePhaseTime "01:40.0" = 100 := by
  have h : parsePhaseTime "01:40.0" =
      ((1 : ℤ) : ℚ) * 60 + (((40 : ℕ) : ℚ) + ((0 : ℕ) : ℚ) / 10 ^ 1) := by rfl
  rw [h]; norm_num

/-- C5 (code bug): `_calculate_structure_component` selects the phases in
which the actor's team IS in possession (`team_in_possession_id == team_id`)
— with the actor's team (5) in possession for both phases the score is
computed (1/2 here), while with the actor's team out of possession (phases
held by team 9, the situation the spec says drives the score) no phase is
selected and the component is 0. -/
theorem structure_component_selects_in_possession_phases :
    structureComponent 5 50 phasesInPossession 120 = 1/2 ∧
    structureComponent 5 50 phasesOutOfPossession 120 = 0 := by
  constructor
  · norm_num [structureComponent, structurePrePhases, structurePostPhases,
      phasesInPossession, avgCompactness, List.filter, parsePhaseTime_ten,
      parsePhaseTime_hundred]
  · norm_num [structureComponent, structurePrePhases, structurePostPhases,
      phasesOutOfPossession, List.filter,
      show ((9 : ℤ) == 5) = false from rfl]

/-- C4 counterexample: the structural sub-score does NOT require 5 phases
per window — with a single selected phase in each sub-window (fewer than
5) it contributes 1/2, not 0.0. -/
theorem structure_component_five_phase_counterexample :
    (structurePrePhases 5 50 120 phasesInPossession).length < 5 ∧
    (structurePostPhases 5 50 120 phasesInPossession).length < 5 ∧
    structureComponent 5 50 phasesInPossession 120 ≠ 0 := by
  refine ⟨?_, ?_, ?_⟩
  · norm_num [structurePrePhases, phasesInPossession, List.filter,
      parsePhaseTime_ten, parsePhaseTime_hundred]
  · norm_num [structurePostPhases, phasesInPossession, List.filter,
      parsePhaseTime_ten, parsePhaseTime_hundred]
  · norm_num [structureComponent, structurePrePhases, structurePostPhases,
      phasesInPossession, avgCompactness, List.filter, parsePhaseTime_ten,
      parsePhaseTime_hundred]

/-- C4 amended: proximity and possession each require at least 5 frames in
both sub-windows and otherwise contribute exactly 0.0; the structural
sub-score requires at least 1 selected phase per sub-window and otherwise
contributes exactly 0.0; and the 0.4/0.3/0.3 weights are applied to
whatever the components return, never re-normalized. -/
theorem tsi_component_starvation :
    (∀ (pid tid : ℤ) (ets : ℚ) (ef : ℤ) (tracking : List Frame) (W : ℚ)
        (efd : Frame),
        pyIndex tracking ef = Except.ok efd →
        (tsiPreFrames tracking efd.period ets W).length < 5 ∨
          (tsiPostFrames tracking efd.period ets W).length < 5 →
        proximityComponent pid tid ets ef tracking W = Except.ok 0) ∧
    (∀ (tid : ℤ) (ets : ℚ) (ef : ℤ) (tracking : List Frame) (W : ℚ)
        (efd : Frame),
        pyIndex tracking ef = Except.ok efd →
        (tsiPreFrames tracking efd.period ets W).length < 5 ∨
          (tsiPostFrames tracking efd.period ets W).length < 5 →
        possessionComponent tid ets ef tracking W = Except.ok 0) ∧
    (∀ (tid : ℤ) (ets : ℚ) (phases : List Phase) (W : ℚ),
        (structurePrePhases tid ets W phases).length < 1 ∨
          (structurePostPhases tid ets W phases).length < 1 →
        structureComponent tid ets phases W = 0) ∧
    (∀ (pid tid : ℤ) (ets : ℚ) (ef : ℤ) (tracking : List Frame)
        (phases : List Phase) (W : ℚ) (p : ℝ) (q : ℚ),
        proximityComponent pid tid ets ef tracking W = Except.ok p →
        possessionComponent tid ets ef tracking W = Except.ok q →
        calculate_tsi pid tid ets ef tracking phases W =
          Except.ok (p * 0.4 + (q : ℝ) * 0.3 +
            ((structureComponent tid ets phases W : ℚ) : ℝ) * 0.3)) := by
  refine ⟨?_, ?_, ?_, ?_⟩
  · intro pid tid ets ef tracking W efd hidx hlt
    simp only [proximityComponent, hidx]
    rw [if_pos hlt]
  · intro tid ets ef tracking W efd hidx hlt
    simp only [possessionComponent, hidx]
    rw [if_pos hlt]
  · intro tid ets phases W hlt
    simp only [structureComponent]
    rw [if_pos hlt]
  · intro pid tid ets ef tracking phases W p q hp hq
    simp only [calculate_tsi, hp, hq]

/-- Witness for the amended C4: with a single tracking frame both TSI
sub-windows are starved and the proximity component is exactly 0. -/
theorem tsi_component_starvation_witness :
    proximityComponent 7 3 0 0 [frameOne] 120 = Except.ok 0 :=
  tsi_component_starvation.1 7 3 0 0 [frameOne] 120 frameOne (by rfl)
    (Or.inl (by norm_num [tsiPreFrames, frameOne, List.filter]))

/-- `_calculate_tactical_metrics` succeeds on every nonempty frame list and
always reports the placeholder velocity 0. -/
theorem tacticalMetrics_of_ne_nil (frames : List Frame) (tid : ℤ)
    (phases : List Phase) (s : ℚ) (h : frames ≠ []) :
    ∃ tm : TacticalMetrics,
      tacticalMetrics frames tid phases s = some tm ∧ tm.avg_velocity = 0 := by
  match frames, h with
  | f0 :: rest, _ => exact ⟨_, rfl, rfl⟩

/-- C6: GIRI is attempted only for `goal_scored`/`goal_conceded` events; it
is null when either window holds fewer than 10 tracking samples; otherwise
it is the arithmetic mean of the three per-metric changes `(post−pre)/|pre|`
(0 when pre is 0), the average-velocity change being identically 0 because
both windows report the placeholder velocity 0. -/
theorem giri_value :
    (∀ (et : String) (tid : ℤ) (g : ℚ) (tracking : List Frame)
        (phases : List Phase) (W : ℚ),
        et ≠ "goal_scored" → et ≠ "goal_conceded" →
        processGiri et tid g tracking phases W = none) ∧
    (∀ (tid : ℤ) (g : ℚ) (tracking : List Frame) (phases : List Phase) (W : ℚ),
        (giriPreFrames tracking g W).length < 10 ∨
          (giriPostFrames tracking g W).length < 10 →
        calculate_giri tid g tracking phases W = none) ∧
    (∀ (tid : ℤ) (g : ℚ) (tracking : List Frame) (phases : List Phase) (W : ℚ),
        ¬ (giriPreFrames tracking g W).length < 10 →
        ¬ (giriPostFrames tracking g W).length < 10 →
        ∃ pm qm : TacticalMetrics,
          tacticalMetrics (giriPreFrames tracking g W) tid phases (g - W) = some pm ∧
          tacticalMetrics (giriPostFrames tracking g W) tid phases g = some qm ∧
          pm.avg_velocity = 0 ∧ qm.avg_velocity = 0 ∧
          calculate_giri tid g tracking phases W =
            some ((relChange pm.block_height qm.block_height + 0 +
                   relChange pm.compactness qm.compactness) / 3)) := by
  refine ⟨?_, ?_, ?_⟩
  · intro et tid g tracking phases W h1 h2
    simp only [processGiri]
    rw [if_neg]
    simp [h1, h2]
  · intro tid g tracking phases W h
    simp only [calculate_giri]
    rw [if_pos h]
  · intro tid g tracking phases W h1 h2
    have hpre : giriPreFrames tracking g W ≠ [] := by
      intro hnil
      rw [hnil] at h1
      simp at h1
    have hpost : giriPostFrames tracking g W ≠ [] := by
      intro hnil
      rw [hnil] at h2
      simp at h2
    obtain ⟨pm, hpm, hpmv⟩ := tacticalMetrics_of_ne_nil _ tid phases (g - W) hpre
    obtain ⟨qm, hqm, hqmv⟩ := tacticalMetrics_of_ne_nil _ tid phases g hpost
    refine ⟨pm, qm, hpm, hqm, hpmv, hqmv, ?_⟩
    simp only [calculate_giri]
    rw [if_neg (by push_neg; omega)]
    rw [hpm, hqm]
    have hv : relChange pm.avg_velocity qm.avg_velocity = 0 := by
      rw [hpmv, hqmv]
      simp [relChange]
    simp only [hv]

/-- Witness for C6 at twenty concrete frames around a goal at t = 300:
both windows are full, the tactical metrics exist with zero velocity, and
GIRI evaluates to the stated mean. -/
theorem giri_value_witness :
    ∃ pm qm : TacticalMetrics,
      tacticalMetrics (giriPreFrames trackingGiri 300 300) 5 [] (300 - 300) = some pm ∧
      tacticalMetrics (giriPostFrames trackingGiri 300 300) 5 [] 300 = some qm ∧
      pm.avg_velocity = 0 ∧ qm.avg_velocity = 0 ∧
      calculate_giri 5 300 trackingGiri [] 300 =
        some ((relChange pm.block_height qm.block_height + 0 +
               relChange pm.compactness qm.compactness) / 3) :=
  giri_value.2.2 5 300 trackingGiri [] 300
    (by norm_num [giriPreFrames, trackingGiri, List.filter, List.range,
      List.range.loop])
    (by norm_num [giriPostFrames, trackingGiri, List.filter, List.range,
      List.range.loop])

/-- A Python index in `[-len, len)` never raises. -/
theorem pyIndex_ok_of_valid {α : Type} (l : List α) (i : ℤ)
    (h1 : -(l.length : ℤ) ≤ i) (h2 : i < (l.length : ℤ)) :
    ∃ a, pyIndex l i = Except.ok a := by
  have hk0 : 0 ≤ (if i < 0 then (l.length : ℤ) + i else i) := by split <;> omega
  have hklen : (if i < 0 then (l.length : ℤ) + i else i).toNat < l.length := by
    split <;> omega
  rw [pyIndex, if_pos hk0, List.get?_eq_get hklen]
  exact ⟨_, rfl⟩

/-- C7 counterexample: with one tracking frame and event frame id 5 the
TSI computation raises `IndexError` (the source reads
`tracking_frames[error_frame]`), so it does not hold for every actor id,
frame id, timestamp, tracking sequence and phase table. -/
theorem tsi_raises_on_out_of_range_frame :
    calculate_tsi 7 3 0 5 [frameOne] [] 120 = Except.error () := by rfl

/-- C7 amended: the TSI computation never raises provided the event frame
id is a valid Python index into the tracking list (`-n ≤ id < n`); when it
does raise, the orchestrator's `try/except` converts the exception into a
null TSI. -/
theorem tsi_total_on_valid_frame_ids :
    (∀ (pid tid : ℤ) (ets : ℚ) (ef : ℤ) (tracking : List Frame)
        (phases : List Phase) (W : ℚ),
        -(tracking.length : ℤ) ≤ ef → ef < (tracking.length : ℤ) →
        ∃ r, calculate_tsi pid tid ets ef tracking phases W = Except.ok r) ∧
    (∀ (pid tid : ℤ) (ets : ℚ) (ef : ℤ) (tracking : List Frame)
        (phases : List Phase) (W : ℚ) (e : Unit),
        calculate_tsi pid tid ets ef tracking phases W = Except.error e →
        processTsi pid tid ets ef tracking phases W = none) := by
  constructor
  · intro pid tid ets ef tracking phases W h1 h2
    obtain ⟨efd, hidx⟩ := pyIndex_ok_of_valid tracking ef h1 h2
    have hprox : ∃ p, proximityComponent pid tid ets ef tracking W =
        Except.ok p := by
      simp only [proximityComponent, hidx]
      split
      · exact ⟨0, rfl⟩
      · split
        · exact ⟨_, rfl⟩
        · exact ⟨0, rfl⟩
    have hposs : ∃ q, possessionComponent tid ets ef tracking W =
        Except.ok q := by
      simp only [possessionComponent, hidx]
      split
      · exact ⟨0, rfl⟩
      · split
        · exact ⟨_, rfl⟩
        · exact ⟨0, rfl⟩
    obtain ⟨p, hp⟩ := hprox
    obtain ⟨q, hq⟩ := hposs
    exact ⟨p * 0.4 + (q : ℝ) * 0.3 +
      ((structureComponent tid ets phases W : ℚ) : ℝ) * 0.3,
      by simp only [calculate_tsi, hp, hq]⟩
  · intro pid tid ets ef tracking phases W e h
    simp only [processTsi]
    by_cases hemp : tracking.isEmpty ∨ phases.isEmpty
    · rw [if_pos hemp]
    · rw [if_neg hemp, h]

/-- Witness for the amended C7: frame id 0 is a valid index into a
one-frame tracking list and TSI computes a value. -/
theorem tsi_total_on_valid_frame_ids_witness :
    ∃ r, calculate_tsi 7 3 0 0 [frameOne] [] 120 = Except.ok r :=
  tsi_total_on_valid_frame_ids.1 7 3 0 0 [frameOne] [] 120
    (by norm_num) (by norm_num)

/-- C3: CRT is null when the event frame cannot be located, when fewer
than 10 same-period frames lie in the post-event window, when the actor
has no baseline entry, or when fewer than 5 actor-resolvable samples
remain. -/
theorem crt_null_conditions :
    (∀ (getB : ℤ → Option PlayerBaseline) (pid : ℤ) (ets : ℚ) (ef : ℤ)
        (tracking : List Frame) (W : ℚ),
        findErrorFrame tracking ets ef = none →
        calculate_crt getB pid ets ef tracking W = none) ∧
    (∀ (getB : ℤ → Option PlayerBaseline) (pid : ℤ) (ets : ℚ) (ef : ℤ)
        (tracking : List Frame) (W : ℚ) (kf : ℕ × Frame),
        findErrorFrame tracking ets ef = some kf →
        (postErrorFrames tracking kf.2.period ets W).length < 10 →
        calculate_crt getB pid ets ef tracking W = none) ∧
    (∀ (getB : ℤ → Option PlayerBaseline) (pid : ℤ) (ets : ℚ) (ef : ℤ)
        (tracking : List Frame) (W : ℚ),
        getB pid = none →
        calculate_crt getB pid ets ef tracking W = none) ∧
    (∀ (getB : ℤ → Option PlayerBaseline) (pid : ℤ) (ets : ℚ) (ef : ℤ)
        (tracking : List Frame) (W : ℚ) (kf : ℕ × Frame),
        findErrorFrame tracking ets ef = some kf →
        (playerMetrics tracking pid
          (postErrorFrames tracking kf.2.period ets W)).length < 5 →
        calculate_crt getB pid ets ef tracking W = none) := by
  refine ⟨?_, ?_, ?_, ?_⟩
  · intro getB pid ets ef tracking W h
    simp only [calculate_crt, h]
  · intro getB pid ets ef tracking W kf h1 h2
    simp only [calculate_crt, h1]
    rw [if_pos h2]
  · intro getB pid ets ef tracking W hB
    simp only [calculate_crt, hB]
    cases hfe : findErrorFrame tracking ets ef with
    | none => simp [hfe]
    | some kf => simp [hfe, ite_self]
  · intro getB pid ets ef tracking W kf h1 h5
    simp only [calculate_crt, h1]
    split
    · rfl
    · cases hB : getB pid with
      | none => simp only [hB]
      | some b => simp only [hB, if_pos h5]

/-- Witness for C3: empty tracking has no frame matching the event, so
CRT is null. -/
theorem crt_null_conditions_witness :
    calculate_crt (fun _ => none) 1 0 5 [] 120 = none :=
  crt_null_conditions.1 (fun _ => none) 1 0 5 [] 120 rfl

/-- The collection loop of `calculate_crt` agrees with the positional
description `amendedGo`, provided the carried previous metric and the
carried `(timestamp, x, y)` triple correspond. -/
theorem playerMetricsGo_amended (tracking : List Frame) (pid : ℤ) :
    ∀ (pef : List (ℕ × Frame)) (pm : Option CrtMetric) (tr : Option (ℚ × ℚ × ℚ)),
      pm.map (fun m => (m.timestamp, m.x, m.y)) = tr →
      playerMetricsGo tracking pid pm pef =
        amendedGo tracking pid tr (presentRetained pid pef) := by
  intro pef
  induction pef with
  | nil =>
    intro pm tr _
    rfl
  | cons q rest ih =>
    obtain ⟨idx, f⟩ := q
    intro pm tr h
    cases hfp : findPlayer f.player_data pid with
    | none =>
      have hpr : presentRetained pid ((idx, f) :: rest) =
          presentRetained pid rest := by
        simp [presentRetained, List.filterMap_cons, hfp]
      rw [hpr]
      simp only [playerMetricsGo, hfp]
      exact ih pm tr h
    | some p =>
      have hpr : presentRetained pid ((idx, f) :: rest) =
          (idx, f, p) :: presentRetained pid rest := by
        simp [presentRetained, List.filterMap_cons, hfp]
      rw [hpr]
      subst h
      cases pm with
      | none =>
        simp only [playerMetricsGo, hfp, amendedGo, Option.map_none']
        refine List.cons_eq_cons.mpr ⟨rfl, ?_⟩
        exact ih (some _) _ rfl
      | some m0 =>
        simp only [playerMetricsGo, hfp, amendedGo, Option.map_some']
        refine List.cons_eq_cons.mpr ⟨rfl, ?_⟩
        exact ih (some _) _ rfl

/-- C1 amended: frames where the actor is absent are skipped; the FIRST
retained actor-present sample's speed is computed against the immediately
preceding frame of the full tracking sequence; every LATER sample's speed
is computed against the previous actor-present retained sample of the
filtered window. -/
theorem crt_speed_rule (tracking : List Frame) (pid : ℤ)
    (pef : List (ℕ × Frame)) :
    playerMetrics tracking pid pef = amendedPlayerMetrics tracking pid pef :=
  playerMetricsGo_amended tracking pid pef none none rfl

/-- C1 counterexample: on `trackingC1` the second retained sample's speed
is 5 (measured against the previous retained sample at t = 0), while the
spec's full-sequence rule gives 8 (measured against the interleaved
period-2 frame at t = 0.5) — so speeds are NOT always computed against
the full-sequence predecessor. -/
theorem crt_speed_rule_counterexample :
    playerMetrics trackingC1 7 (postErrorFrames trackingC1 1 0 120) ≠
      claimedPlayerMetrics trackingC1 7 (postErrorFrames trackingC1 1 0 120) := by
  have henum : trackingC1.enum =
      [(0, ⟨100, 0, 1, [⟨7, 0, 0⟩], ⟨"none"⟩⟩),
       (1, ⟨101, 1/2, 2, [⟨7, 3, 8⟩], ⟨"none"⟩⟩),
       (2, ⟨102, 1, 1, [⟨7, 3, 4⟩], ⟨"none"⟩⟩)] := by rfl
  have hpef : postErrorFrames trackingC1 1 0 120 =
      [(0, ⟨100, 0, 1, [⟨7, 0, 0⟩], ⟨"none"⟩⟩),
       (2, ⟨102, 1, 1, [⟨7, 3, 4⟩], ⟨"none"⟩⟩)] := by
    rw [postErrorFrames, henum]
    norm_num [List.filter, show ((2 : ℤ) == 1) = false from rfl]
  intro heq
  rw [hpef] at heq
  have h2 := congrArg (fun l => (l.getD 1 default).velocity) heq
  norm_num [playerMetrics, playerMetricsGo, claimedPlayerMetrics,
    presentRetained, claimedVelocity, findPlayer, List.find?, List.filterMap,
    trackingC1] at h2
  rw [show (25 : ℝ) = 5 ^ 2 by norm_num,
    show (16 : ℝ) = 4 ^ 2 by norm_num,
    Real.sqrt_sq (by norm_num : (0 : ℝ) ≤ 5),
    Real.sqrt_sq (by norm_num : (0 : ℝ) ≤ 4)] at h2
  norm_num at h2

/-- C2: when every null-precondition is satisfied (event frame located,
at least 10 window frames, baseline present, at least 5 actor-resolvable
samples, non-singular regularized covariance), CRT is the elapsed time
`sample_ts − event_ts` at the first index where the EWMA-smoothed
Mahalanobis distance drops below 1.0, and the window length `W` itself when
the threshold is never crossed — in both cases a non-null value. -/
theorem crt_recovery_value (getB : ℤ → Option PlayerBaseline) (pid : ℤ)
    (ets : ℚ) (ef : ℤ) (tracking : List Frame) (W : ℚ) (kf : ℕ × Frame)
    (b : PlayerBaseline)
    (h1 : findErrorFrame tracking ets ef = some kf)
    (h2 : ¬ (postErrorFrames tracking kf.2.period ets W).length < 10)
    (h3 : getB pid = some b)
    (h4 : ¬ (playerMetrics tracking pid
      (postErrorFrames tracking kf.2.period ets W)).length < 5)
    (h5 : (regCov ((playerMetrics tracking pid
      (postErrorFrames tracking kf.2.period ets W)).map featureVec)).det ≠ 0) :
    calculate_crt getB pid ets ef tracking W =
      some (match firstRecoveryIdx (ewmaList (mahalanobisList b
            (playerMetrics tracking pid
              (postErrorFrames tracking kf.2.period ets W)))) with
        | some i => ((playerMetrics tracking pid
            (postErrorFrames tracking kf.2.period ets W)).getD i default).timestamp - ets
        | none => W) := by
  have hlen2 : ¬ ((playerMetrics tracking pid
      (postErrorFrames tracking kf.2.period ets W)).map featureVec).length < 2 := by
    rw [List.length_map]
    omega
  have hds : ¬ (mahalanobisList b (playerMetrics tracking pid
      (postErrorFrames tracking kf.2.period ets W))).length < 5 := by
    rw [mahalanobisList, List.length_map]
    omega
  simp only [calculate_crt, h1, h3]
  rw [if_neg h2, if_neg h4, if_neg hlen2, if_neg h5, if_neg hds]
  cases hfr : firstRecoveryIdx (ewmaList (mahalanobisList b
      (playerMetrics tracking pid (postErrorFrames tracking kf.2.period ets W)))) with
  | none => simp [hfr]
  | some i => simp [hfr]

/-- Witness for C2: player 7 rests at the origin for ten frames and the
baseline coincides with that state, so the smoothed distance is below the
threshold at index 0 and CRT = 0. -/
theorem crt_recovery_value_witness :
    calculate_crt (fun _ => some baselineZero) 7 0 100 trackingCrt 120 = some 0 := by
  have henum : trackingCrt.enum =
      [(0, ⟨100, 0, 1, [⟨7, 0, 0⟩], ⟨"none"⟩⟩),
       (1, ⟨101, 1, 1, [⟨7, 0, 0⟩], ⟨"none"⟩⟩),
       (2, ⟨102, 2, 1, [⟨7, 0, 0⟩], ⟨"none"⟩⟩),
       (3, ⟨103, 3, 1, [⟨7, 0, 0⟩], ⟨"none"⟩⟩),
       (4, ⟨104, 4, 1, [⟨7, 0, 0⟩], ⟨"none"⟩⟩),
       (5, ⟨105, 5, 1, [⟨7, 0, 0⟩], ⟨"none"⟩⟩),
       (6, ⟨106, 6, 1, [⟨7, 0, 0⟩], ⟨"none"⟩⟩),
       (7, ⟨107, 7, 1, [⟨7, 0, 0⟩], ⟨"none"⟩⟩),
       (8, ⟨108, 8, 1, [⟨7, 0, 0⟩], ⟨"none"⟩⟩),
       (9, ⟨109, 9, 1, [⟨7, 0, 0⟩], ⟨"none"⟩⟩)] := by rfl
  have h1 : findErrorFrame trackingCrt 0 100 =
      some (0, ⟨100, 0, 1, [⟨7, 0, 0⟩], ⟨"none"⟩⟩) := by rfl
  have hpef : postErrorFrames trackingCrt 1 0 120 = trackingCrt.enum := by
    rw [postErrorFrames, henum]
    norm_num [List.filter]
  have hpm : playerMetrics trackingCrt 7 (postErrorFrames trackingCrt 1 0 120) =
      [⟨0, 0, 0, 0, 0⟩, ⟨1, 0, 0, 0, 0⟩, ⟨2, 0, 0, 0, 0⟩, ⟨3, 0, 0, 0, 0⟩,
       ⟨4, 0, 0, 0, 0⟩, ⟨5, 0, 0, 0, 0⟩, ⟨6, 0, 0, 0, 0⟩, ⟨7, 0, 0, 0, 0⟩,
       ⟨8, 0, 0, 0, 0⟩, ⟨9, 0, 0, 0, 0⟩] := by
    rw [hpef, henum]
    norm_num [playerMetrics, playerMetricsGo, findPlayer, List.find?,
      Real.sqrt_zero, CrtMetric.mk.injEq, trackingCrt]
  have hv : ∀ t : ℚ, featureVec ⟨t, 0, 0, 0, 0⟩ = (fun _ => (0 : ℝ)) := by
    intro t
    funext i
    fin_cases i <;> simp [featureVec]
  have hb : baselineVec baselineZero = (fun _ => (0 : ℝ)) := by
    funext i
    fin_cases i <;> simp [baselineVec, baselineZero]
  have hvs : ([⟨0, 0, 0, 0, 0⟩, ⟨1, 0, 0, 0, 0⟩, ⟨2, 0, 0, 0, 0⟩,
      ⟨3, 0, 0, 0, 0⟩, ⟨4, 0, 0, 0, 0⟩, ⟨5, 0, 0, 0, 0⟩, ⟨6, 0, 0, 0, 0⟩,
      ⟨7, 0, 0, 0, 0⟩, ⟨8, 0, 0, 0, 0⟩, ⟨9, 0, 0, 0, 0⟩] :
        List CrtMetric).map featureVec =
      [(fun _ => (0 : ℝ)), (fun _ => (0 : ℝ)), (fun _ => (0 : ℝ)),
       (fun _ => (0 : ℝ)), (fun _ => (0 : ℝ)), (fun _ => (0 : ℝ)),
       (fun _ => (0 : ℝ)), (fun _ => (0 : ℝ)), (fun _ => (0 : ℝ)),
       (fun _ => (0 : ℝ))] := by
    simp [hv]
  have hcov : covMatrix
      [(fun _ => (0 : ℝ)), (fun _ => (0 : ℝ)), (fun _ => (0 : ℝ)),
       (fun _ => (0 : ℝ)), (fun _ => (0 : ℝ)), (fun _ => (0 : ℝ)),
       (fun _ => (0 : ℝ)), (fun _ => (0 : ℝ)), (fun _ => (0 : ℝ)),
       (fun _ => (0 : ℝ))] = 0 := by
    ext i j
    norm_num [covMatrix, Matrix.of_apply, meanVec]
  have hreg : regCov
      [(fun _ => (0 : ℝ)), (fun _ => (0 : ℝ)), (fun _ => (0 : ℝ)),
       (fun _ => (0 : ℝ)), (fun _ => (0 : ℝ)), (fun _ => (0 : ℝ)),
       (fun _ => (0 : ℝ)), (fun _ => (0 : ℝ)), (fun _ => (0 : ℝ)),
       (fun _ => (0 : ℝ))] = (0.01 : ℝ) • 1 := by
    rw [regCov, hcov, zero_add]
  have h2 : ¬ (postErrorFrames trackingCrt 1 0 120).length < 10 := by
    rw [hpef, henum]
    norm_num
  have h4 : ¬ (playerMetrics trackingCrt 7
      (postErrorFrames trackingCrt 1 0 120)).length < 5 := by
    rw [hpm]
    norm_num
  have h5 : (regCov ((playerMetrics trackingCrt 7
      (postErrorFrames trackingCrt 1 0 120)).map featureVec)).det ≠ 0 := by
    rw [hpm, hvs, hreg, Matrix.det_smul, Matrix.det_one]
    norm_num
  have hm : ∀ VI : Matrix (Fin 4) (Fin 4) ℝ,
      mahalanobisDist (fun _ => 0) (fun _ => 0) VI = 0 := by
    intro VI
    simp [mahalanobisDist]
  have hdists : mahalanobisList baselineZero
      [⟨0, 0, 0, 0, 0⟩, ⟨1, 0, 0, 0, 0⟩, ⟨2, 0, 0, 0, 0⟩, ⟨3, 0, 0, 0, 0⟩,
       ⟨4, 0, 0, 0, 0⟩, ⟨5, 0, 0, 0, 0⟩, ⟨6, 0, 0, 0, 0⟩, ⟨7, 0, 0, 0, 0⟩,
       ⟨8, 0, 0, 0, 0⟩, ⟨9, 0, 0, 0, 0⟩] =
      [0, 0, 0, 0, 0, 0, 0, 0, 0, 0] := by
    simp [mahalanobisList, hv, hb, hm]
  have hfr : firstRecoveryIdx (ewmaList (mahalanobisList baselineZero
      [⟨0, 0, 0, 0, 0⟩, ⟨1, 0, 0, 0, 0⟩, ⟨2, 0, 0, 0, 0⟩, ⟨3, 0, 0, 0, 0⟩,
       ⟨4, 0, 0, 0, 0⟩, ⟨5, 0, 0, 0, 0⟩, ⟨6, 0, 0, 0, 0⟩, ⟨7, 0, 0, 0, 0⟩,
       ⟨8, 0, 0, 0, 0⟩, ⟨9, 0, 0, 0, 0⟩])) = some 0 := by
    rw [hdists]
    simp only [ewmaList, firstRecoveryIdx]
    rw [if_pos (by norm_num : (0 : ℝ) < 1)]
  have happ := crt_recovery_value (fun _ => some baselineZero) 7 0 100
    trackingCrt 120 (0, ⟨100, 0, 1, [⟨7, 0, 0⟩], ⟨"none"⟩⟩) baselineZero
    h1 h2 rfl h4 h5
  rw [hpm, hfr] at happ
  simpa using happ

end R3ACT
